import Mathlib

/-!
A shallow embedding of `cmd/iceberg/include/iceberg_metrics.h`.

The header consists of seven declared Go-exported entry points and seven
`static inline` wrapper functions that forward to them.  Pointers and
`uintptr_t` values are modelled as `Nat` (with `0` the null pointer).  The
wrappers are embedded exactly as written: each one is a pure forwarding call
into a table of entry points that is kept fully abstract, since the entry
points' implementations live outside the header.  Where a claim concerns the
behaviour of those external entry points themselves, a state-machine model is
built from the specification's words; such definitions are marked
`Modelled from the spec:` in their doc comments.
-/

universe u

/-- Model of the C `uintptr_t` type: pointer-sized unsigned integer values. -/
abbrev uintptr_t : Type := Nat

/-- Source: `typedef uintptr_t iceberg_metrics_property_map;` — the opaque
handle naming a property map held by the runtime. -/
abbrev iceberg_metrics_property_map : Type := uintptr_t

/-- The table of the seven declared Go-exported entry points of the header.
Their implementations are not part of the header, so the table is abstract
over an arbitrary world type `ω`; value-returning entry points return the
new world together with a `Nat`-modelled pointer or handle. -/
structure GoEntryPoints (ω : Type u) where
  new_property_map : ω → ω × Nat
  delete_map : Nat → ω → ω
  add_map_entry : Nat → Nat → Nat → ω → ω
  install_prometheus_metrics_provider : Nat → ω → ω × Nat
  shutdown_metrics_provider : ω → ω × Nat
  disable_metrics : ω → ω
  free_c_string : Nat → ω → ω

variable {ω : Type u}

/-- Source wrapper: `return new_property_map();`. -/
def iceberg_metrics_new_property_map (E : GoEntryPoints ω) (s : ω) : ω × Nat :=
  E.new_property_map s

/-- Source wrapper: `delete_map(map);`. -/
def iceberg_metrics_delete_property_map (E : GoEntryPoints ω)
    (map : iceberg_metrics_property_map) (s : ω) : ω :=
  E.delete_map map s

/-- Source wrapper: `add_map_entry(map, key, value);`. -/
def iceberg_metrics_set_property (E : GoEntryPoints ω)
    (map : iceberg_metrics_property_map) (key value : Nat) (s : ω) : ω :=
  E.add_map_entry map key value s

/-- Source wrapper: `return install_prometheus_metrics_provider(map);`. -/
def iceberg_metrics_install_prometheus_provider (E : GoEntryPoints ω)
    (map : iceberg_metrics_property_map) (s : ω) : ω × Nat :=
  E.install_prometheus_metrics_provider map s

/-- Source wrapper: `return shutdown_metrics_provider();`. -/
def iceberg_metrics_shutdown_provider (E : GoEntryPoints ω) (s : ω) : ω × Nat :=
  E.shutdown_metrics_provider s

/-- Source wrapper: `disable_metrics();`. -/
def iceberg_metrics_disable (E : GoEntryPoints ω) (s : ω) : ω :=
  E.disable_metrics s

/-- Source wrapper: `free_c_string(err);`. -/
def iceberg_metrics_free_error (E : GoEntryPoints ω) (err : Nat) (s : ω) : ω :=
  E.free_c_string err s

/-- A concrete, trivially evaluable entry-point table over `Nat` worlds, used
only to evaluate the wrappers at concrete inputs. -/
def trivialEntryPoints : GoEntryPoints Nat where
  new_property_map := fun s => (s, 0)
  delete_map := fun _ s => s
  add_map_entry := fun _ _ _ s => s
  install_prometheus_metrics_provider := fun _ s => (s, 0)
  shutdown_metrics_provider := fun s => (s, 0)
  disable_metrics := fun s => s
  free_c_string := fun _ s => s

/-- Modelled from the spec: the process-wide state of the external metrics
runtime that the header binds to.  `maps` are the live property maps keyed by
handle; `nextHandle` feeds fresh handles; `provider` is the single
process-wide active-provider slot; `errAlloc` records the heap-allocated,
still-unfreed error strings by pointer value; `nextPtr` feeds fresh non-null
error-string pointers. -/
structure MetricsState where
  maps : List (Nat × List (String × String))
  nextHandle : Nat
  provider : Option (List (String × String))
  errAlloc : List Nat
  nextPtr : Nat
deriving DecidableEq

/-- Modelled from the spec: look up the property map a handle refers to. -/
def findMap (s : MetricsState) (h : Nat) : Option (List (String × String)) :=
  (s.maps.find? (fun p => p.1 == h)).map (fun p => p.2)

/-- Modelled from the spec: `new_property_map` (Go implementation absent from
the sources) — allocates a fresh empty map under a fresh non-null handle and
returns that handle. -/
def new_property_map (s : MetricsState) : MetricsState × Nat :=
  ({ s with maps := (s.nextHandle + 1, []) :: s.maps, nextHandle := s.nextHandle + 1 },
   s.nextHandle + 1)

/-- Modelled from the spec: `delete_map` (Go implementation absent from the
sources) — destroys the map a live handle refers to; `none` models a fault on
a handle that is not live. -/
def delete_map (h : Nat) (s : MetricsState) : Option MetricsState :=
  if s.maps.any (fun p => p.1 == h) then
    some { s with maps := s.maps.filter (fun p => p.1 != h) }
  else
    none

/-- Modelled from the spec: insert or overwrite one key/value pair of a
property list. -/
def setEntry (props : List (String × String)) (k v : String) :
    List (String × String) :=
  if props.any (fun e => e.1 == k) then
    props.map (fun e => if e.1 == k then (e.1, v) else e)
  else
    props ++ [(k, v)]

/-- Modelled from the spec: `add_map_entry` (Go implementation absent from the
sources) — inserts a key/value pair into the map a live handle refers to;
`none` models a fault on a handle that is not live. -/
def add_map_entry (h : Nat) (k v : String) (s : MetricsState) :
    Option MetricsState :=
  if s.maps.any (fun p => p.1 == h) then
    some { s with
            maps := s.maps.map (fun p => if p.1 == h then (p.1, setEntry p.2 k v) else p) }
  else
    none

/-- Modelled from the spec: `install_prometheus_metrics_provider` (Go
implementation absent from the sources).  Whether the external installation
succeeds is abstracted by the boolean oracle `ok`.  On success the provider
slot is filled from the supplied map, which is read but never destroyed or
consumed, and null (`0`) is returned.  On failure a fresh non-null error
string is heap-allocated and its pointer returned, owned by the caller. -/
def install_prometheus_metrics_provider (ok : Bool) (h : Nat) (s : MetricsState) :
    MetricsState × Nat :=
  match findMap s h, ok with
  | some props, true => ({ s with provider := some props }, 0)
  | _, _ =>
      ({ s with errAlloc := (s.nextPtr + 1) :: s.errAlloc, nextPtr := s.nextPtr + 1 },
       s.nextPtr + 1)

/-- Modelled from the spec: `shutdown_metrics_provider` (Go implementation
absent from the sources).  Whether the external shutdown succeeds is
abstracted by the boolean oracle `ok`; success clears the provider slot and
returns null, failure heap-allocates a fresh non-null error string owned by
the caller. -/
def shutdown_metrics_provider (ok : Bool) (s : MetricsState) :
    MetricsState × Nat :=
  if ok then ({ s with provider := none }, 0)
  else ({ s with errAlloc := (s.nextPtr + 1) :: s.errAlloc, nextPtr := s.nextPtr + 1 },
        s.nextPtr + 1)

/-- Modelled from the spec: `disable_metrics` (Go implementation absent from
the sources) — clears the process-wide provider slot. -/
def disable_metrics (s : MetricsState) : MetricsState :=
  { s with provider := none }

/-- Modelled from the spec: `free_c_string` (Go implementation absent from the
sources) — releases a heap-allocated error string; freeing the null pointer
is a no-op, freeing a pointer that is not a live allocation (`none`) models a
fault. -/
def free_c_string (p : Nat) (s : MetricsState) : Option MetricsState :=
  if p = 0 then some s
  else if p ∈ s.errAlloc then some { s with errAlloc := s.errAlloc.erase p }
  else none

/-- One create/delete round trip of a property map. -/
def createDeleteOnce (s : MetricsState) : Option MetricsState :=
  let r := new_property_map s
  delete_map r.2 r.1

/-- `n` repeated create/delete round trips of a property map. -/
def createDeleteN : Nat → MetricsState → Option MetricsState
  | 0, s => some s
  | n + 1, s => (createDeleteOnce s).bind (createDeleteN n)

/-- C types appearing in the header's declarations. -/
inductive CType where
  | void
  | uintptr
  | charPtr
  | constCharPtr
deriving DecidableEq

/-- A C function declaration: its name, return type and argument types. -/
structure CDecl where
  name : String
  ret : CType
  args : List CType
deriving DecidableEq

/-- The seven declared entry points, transcribed from the header's
declaration block. -/
def headerDecls : List CDecl :=
  [⟨"new_property_map", .uintptr, []⟩,
   ⟨"delete_map", .void, [.uintptr]⟩,
   ⟨"add_map_entry", .void, [.uintptr, .constCharPtr, .constCharPtr]⟩,
   ⟨"install_prometheus_metrics_provider", .charPtr, [.uintptr]⟩,
   ⟨"shutdown_metrics_provider", .charPtr, []⟩,
   ⟨"disable_metrics", .void, []⟩,
   ⟨"free_c_string", .void, [.charPtr]⟩]

/-- Modelled from the spec: the documented C-callable ABI of section 6, with
`handle` read as `uintptr_t`, `error-string-or-null` as `char *`, the key and
value strings as `const char *`, and `ptr` as `char *`. -/
def specAbiDecls : List CDecl :=
  [⟨"new_property_map", .uintptr, []⟩,
   ⟨"delete_map", .void, [.uintptr]⟩,
   ⟨"add_map_entry", .void, [.uintptr, .constCharPtr, .constCharPtr]⟩,
   ⟨"install_prometheus_metrics_provider", .charPtr, [.uintptr]⟩,
   ⟨"shutdown_metrics_provider", .charPtr, []⟩,
   ⟨"disable_metrics", .void, []⟩,
   ⟨"free_c_string", .void, [.charPtr]⟩]

/-- The key/value pairs set by the usage example in the header's closing
comment, in order. -/
def exampleUsageProperties : List (String × String) :=
  [("service.name", "iceberg-worker"),
   ("service.version", "1.2.3"),
   ("prometheus.handler_path", "/metrics")]

/-- The post-state of a successful or failed install keeps the `maps` field
untouched. -/
theorem install_maps_eq (ok : Bool) (h : Nat) (s : MetricsState) :
    ((install_prometheus_metrics_provider ok h s).1).maps = s.maps := by
  unfold install_prometheus_metrics_provider
  rcases findMap s h with _ | props <;> cases ok <;> rfl

/-- `delete_map` succeeds exactly when the handle is live. -/
theorem delete_map_isSome (h : Nat) (s : MetricsState) :
    (delete_map h s).isSome = s.maps.any (fun p => p.1 == h) := by
  unfold delete_map
  rcases hcond : s.maps.any (fun p => p.1 == h) with _ | _ <;> simp [hcond]

/-- A single create/delete round trip always succeeds. -/
theorem createDeleteOnce_isSome (s : MetricsState) :
    (createDeleteOnce s).isSome = true := by
  simp [createDeleteOnce, new_property_map, delete_map]

/-- Claim C1: each of the seven static inline wrappers returns exactly the
value obtained by forwarding its arguments unchanged to the corresponding
declared entry point, for every entry-point table, world and arguments —
no validation, branching, or computation of its own. -/
theorem wrappers_forward_unchanged :
    ∀ (ω : Type u) (E : GoEntryPoints ω) (s : ω) (m k v p : Nat),
      iceberg_metrics_new_property_map E s = E.new_property_map s ∧
      iceberg_metrics_delete_property_map E m s = E.delete_map m s ∧
      iceberg_metrics_set_property E m k v s = E.add_map_entry m k v s ∧
      iceberg_metrics_install_prometheus_provider E m s =
        E.install_prometheus_metrics_provider m s ∧
      iceberg_metrics_shutdown_provider E s = E.shutdown_metrics_provider s ∧
      iceberg_metrics_disable E s = E.disable_metrics s ∧
      iceberg_metrics_free_error E p s = E.free_c_string p s :=
  fun _ _ _ _ _ _ _ => ⟨rfl, rfl, rfl, rfl, rfl, rfl, rfl⟩

/-- Claim C2: the two string-returning operations return null (`0`) if and
only if the operation succeeded, and any non-null return is a
heap-allocated error string recorded as owned by the caller; there is no
other error channel in their result. -/
theorem string_return_null_iff_success :
    ∀ (ok : Bool) (h : Nat) (s : MetricsState),
      (((install_prometheus_metrics_provider ok h s).2 = 0) ↔
        ((findMap s h).isSome = true ∧ ok = true)) ∧
      ((install_prometheus_metrics_provider ok h s).2 = 0 ∨
        (install_prometheus_metrics_provider ok h s).2 ∈
          ((install_prometheus_metrics_provider ok h s).1).errAlloc) ∧
      (((shutdown_metrics_provider ok s).2 = 0) ↔ ok = true) ∧
      ((shutdown_metrics_provider ok s).2 = 0 ∨
        (shutdown_metrics_provider ok s).2 ∈
          ((shutdown_metrics_provider ok s).1).errAlloc) := by
  intro ok h s
  unfold install_prometheus_metrics_provider shutdown_metrics_provider
  rcases hf : findMap s h with _ | props <;> cases ok <;> simp [hf]

/-- Claim C3: every pointer returned by install or shutdown is either null or
a live allocation that `free_c_string` releases without fault. -/
theorem returned_error_pointer_freeable :
    ∀ (ok : Bool) (h : Nat) (s : MetricsState),
      (free_c_string (install_prometheus_metrics_provider ok h s).2
          ((install_prometheus_metrics_provider ok h s).1)).isSome = true ∧
      (free_c_string (shutdown_metrics_provider ok s).2
          ((shutdown_metrics_provider ok s).1)).isSome = true := by
  intro ok h s
  unfold install_prometheus_metrics_provider shutdown_metrics_provider
  rcases hf : findMap s h with _ | props <;> cases ok <;> simp [hf, free_c_string]

/-- Claim C4: installing the provider neither destroys nor modifies any
property map: the `maps` table is unchanged, every handle still resolves to
the same map afterwards, and deleting the supplied handle succeeds after the
call exactly when it would have succeeded before, so the caller can (and
must) still destroy the map. -/
theorem install_preserves_property_map :
    ∀ (ok : Bool) (m : Nat) (s : MetricsState),
      ((install_prometheus_metrics_provider ok m s).1).maps = s.maps ∧
      (∀ x, findMap ((install_prometheus_metrics_provider ok m s).1) x = findMap s x) ∧
      ((delete_map m ((install_prometheus_metrics_provider ok m s).1)).isSome =
        (delete_map m s).isSome) := by
  intro ok m s
  refine ⟨install_maps_eq ok m s, ?_, ?_⟩
  · intro x
    unfold findMap
    rw [install_maps_eq]
  · rw [delete_map_isSome, delete_map_isSome, install_maps_eq]

/-- Claim C5: the header declares exactly the seven documented entry points,
with the documented signatures, under pairwise distinct names. -/
theorem header_declares_documented_abi :
    headerDecls = specAbiDecls ∧
    headerDecls.length = 7 ∧
    (headerDecls.map CDecl.name).Nodup := by
  refine ⟨rfl, rfl, ?_⟩
  decide

/-- Claim C6: any number of repeated create/delete round trips of a property
map succeeds from any state — no call in the sequence faults. -/
theorem repeated_create_delete_no_fault :
    ∀ (n : Nat) (s : MetricsState), (createDeleteN n s).isSome = true := by
  intro n
  induction n with
  | zero => intro s; rfl
  | succ k ih =>
      intro s
      have h1 : (createDeleteOnce s).isSome = true := createDeleteOnce_isSome s
      rcases Option.isSome_iff_exists.mp h1 with ⟨t, ht⟩
      simp [createDeleteN, ht, ih t]

/-- Claim C7: the usage example configures exactly the three suggested keys
`service.name`, `service.version`, `prometheus.handler_path` before
installing, and installation never inspects those keys: its success is
determined by handle liveness and the external oracle alone, for a map with
any contents whatsoever. -/
theorem example_keys_are_unenforced_convention :
    (exampleUsageProperties.map Prod.fst =
      ["service.name", "service.version", "prometheus.handler_path"]) ∧
    (∀ (ok : Bool) (h : Nat) (s : MetricsState),
      ((install_prometheus_metrics_provider ok h s).2 = 0) ↔
        ((findMap s h).isSome = true ∧ ok = true)) := by
  refine ⟨rfl, ?_⟩
  intro ok h s
  unfold install_prometheus_metrics_provider
  rcases hf : findMap s h with _ | props <;> cases ok <;> simp [hf]

/-- Claim C8: `iceberg_metrics_free_error` forwards its pointer to
`free_c_string` unguarded, for every pointer and in particular for the null
pointer `0`: whatever `free_c_string` does there is what the wrapper does. -/
theorem free_error_forwards_null_unchecked :
    ∀ (ω : Type u) (E : GoEntryPoints ω) (s : ω) (p : Nat),
      iceberg_metrics_free_error E p s = E.free_c_string p s ∧
      iceberg_metrics_free_error E 0 s = E.free_c_string 0 s :=
  fun _ _ _ _ => ⟨rfl, rfl⟩

/-- Claim C9: the wrappers for set-property, delete and install forward every
handle and pointer argument unchanged — including `0` and handle values never
allocated — performing no validity, liveness, or null check. -/
theorem wrappers_no_argument_validation :
    ∀ (ω : Type u) (E : GoEntryPoints ω) (s : ω) (h k v : Nat),
      iceberg_metrics_set_property E h k v s = E.add_map_entry h k v s ∧
      iceberg_metrics_delete_property_map E h s = E.delete_map h s ∧
      iceberg_metrics_install_prometheus_provider E h s =
        E.install_prometheus_metrics_provider h s :=
  fun _ _ _ _ _ _ => ⟨rfl, rfl, rfl⟩

/-- Claim C10: the handle type is a typedef of `uintptr_t` (itself a plain
integer type), so every such value is a well-typed handle, handles compare as
integers, and after a successful `delete_map` the stale handle value is still
accepted and forwarded unchanged by the header's wrapper — the header keeps
no type-level invariant separating live from deleted handles. -/
theorem handle_is_plain_uintptr :
    (iceberg_metrics_property_map = uintptr_t) ∧
    (uintptr_t = Nat) ∧
    (∀ a b : iceberg_metrics_property_map, a = b ∨ ¬a = b) ∧
    (∀ (h : Nat) (s s2 : MetricsState), delete_map h s = some s2 →
      ∀ (ω : Type u) (E : GoEntryPoints ω) (w : ω),
        iceberg_metrics_delete_property_map E h w = E.delete_map h w) :=
  ⟨rfl, rfl, fun a b => Decidable.em (a = b), fun _ _ _ _ _ _ _ => rfl⟩

/-- Witness for C10: a concrete successful deletion, after which the stale
handle `1` is still forwarded unchanged by the wrapper. -/
theorem handle_is_plain_uintptr_witness :
    iceberg_metrics_delete_property_map trivialEntryPoints 1 0 =
      trivialEntryPoints.delete_map 1 0 :=
  handle_is_plain_uintptr.2.2.2 1 ⟨[(1, [])], 1, none, [], 0⟩ ⟨[], 1, none, [], 0⟩
    (by decide) Nat trivialEntryPoints 0
